import Mathlib

/-!
Verification model of the camera-qna-react application (src/src/App.tsx).

The application is a single React component.  Its behaviour relevant to the
specification lives in three functions and one effect:

* `captureAndProcess` — one pipeline cycle: precondition check on the two API
  keys, webcam screenshot, OCR call, completion call, with `setStatus`,
  `setAnswer` and `setCapturing` state updates along the way;
* `doOcr` — POSTs the image to the OCR service and extracts
  `response.data?.ParsedResults?.[0]?.ParsedText`, returning `parsedText || ""`,
  with a `catch` that sets status "OCR failed" and returns "";
* `askOpenAI` — POSTs the chat-completion request and returns
  `res.data.choices?.[0]?.message?.content?.trim() || ""`, with a `catch` that
  sets status "OpenAI failed" and returns "API Error";
* the `useEffect` on `capturing` — on start it sets the dot green, runs one
  cycle immediately and then schedules `captureAndProcess` every
  `interval * 1000` ms; on stop it sets the dot red, clears the timer and sets
  status "Idle".

We embed a cycle as the list of observable events it emits (state updates and
outgoing HTTP requests), in program order.  The external world for one cycle —
whether the webcam component is mounted, what `getScreenshot()` returns, and
what each HTTP call yields (`none` models a thrown error: network failure or a
non-2xx response, which axios raises) — is a `CycleEnv` record.  The final
React state of a cycle is the left fold of the state-update events over the
starting state.  JavaScript truthiness on strings (`!s`, `s || ""`) is modelled
by comparison with the empty string.
-/

/-- JavaScript `x || ""` on a possibly-undefined string (`none` = `undefined`):
an absent or empty (falsy) string yields `""`. -/
def jsOrEmpty : Option String → String
  | none => ""
  | some s => if s = "" then "" else s

/-- One entry of `ParsedResults` in the OCR service's JSON body; `ParsedText`
may be absent (`data?.ParsedResults?.[0]?.ParsedText` is optional chaining). -/
structure OcrParsedResult where
  ParsedText : Option String
  deriving DecidableEq, Repr

/-- JSON body of a 2xx OCR response; the `ParsedResults` array may be absent. -/
structure OcrResponse where
  ParsedResults : Option (List OcrParsedResult)
  deriving DecidableEq, Repr

/-- `message` object of one chat-completion choice; `content` may be absent. -/
structure ChatMessage where
  content : Option String
  deriving DecidableEq, Repr

/-- One entry of `choices` in the completion service's JSON body. -/
structure ChatChoice where
  message : Option ChatMessage
  deriving DecidableEq, Repr

/-- JSON body of a 2xx completion response; `choices` may be absent. -/
structure ChatResponse where
  choices : Option (List ChatChoice)
  deriving DecidableEq, Repr

/-- The settings the pipeline reads: `openAiKey`, `ocrKey`, `prompt`
(the `interval` setting is modelled separately, see `jsNumber` below). -/
structure Config where
  openAiKey : String
  ocrKey : String
  prompt : String
  deriving DecidableEq, Repr

/-- The component state a cycle mutates: `capturing`, `status`, `answer`. -/
structure RunState where
  capturing : Bool
  status : String
  answer : String
  deriving DecidableEq, Repr

/-- The external world during one cycle: is the `Webcam` component mounted
(`webcamRef.current` non-null), what `getScreenshot()` returns (`none` = the
webcam yielded no image), and the outcome of each HTTP call (`none` = axios
threw: network error or non-2xx status). -/
structure CycleEnv where
  webcamMounted : Bool
  screenshot : Option String
  ocrResponse : Option OcrResponse
  openAiResponse : Option ChatResponse
  deriving DecidableEq, Repr

/-- Observable events of one cycle, in program order: React state updates and
outgoing HTTP requests. -/
inductive Ev where
  | setStatus (msg : String)
  | setAnswer (a : String)
  | setCapturing (b : Bool)
  | ocrRequest (image : String)
  | openAiRequest (question : String)
  deriving DecidableEq, Repr

/-- Effect of one event on the component state (request events change no
state). -/
def applyEv (s : RunState) : Ev → RunState
  | Ev.setStatus m => { s with status := m }
  | Ev.setAnswer a => { s with answer := a }
  | Ev.setCapturing b => { s with capturing := b }
  | Ev.ocrRequest _ => s
  | Ev.openAiRequest _ => s

/-- Final component state after a list of events. -/
def runState (s : RunState) (evs : List Ev) : RunState :=
  evs.foldl applyEv s

/-- `doOcr` (App.tsx lines 69–84): POST the image to OCR.Space; on a 2xx
response return `response.data?.ParsedResults?.[0]?.ParsedText || ""`; on a
thrown error set status "OCR failed" and return `""`.  The result is the
returned string paired with the events the call emits. -/
def doOcr (imageBase64 : String) (resp : Option OcrResponse) :
    String × List Ev :=
  match resp with
  | some r =>
      (jsOrEmpty ((r.ParsedResults.bind List.head?).bind OcrParsedResult.ParsedText),
       [Ev.ocrRequest imageBase64])
  | none =>
      ("", [Ev.ocrRequest imageBase64, Ev.setStatus "OCR failed"])

/-- Drop leading whitespace characters from a character list. -/
def dropWhitespaceLeft : List Char → List Char
  | [] => []
  | c :: cs => if c.isWhitespace then dropWhitespaceLeft cs else c :: cs

/-- JavaScript `s.trim()`: remove whitespace from both ends.  Modelled
structurally on the character list so that proofs can evaluate it on concrete
strings. -/
def jsTrim (s : String) : String :=
  ⟨(dropWhitespaceLeft ((dropWhitespaceLeft s.data).reverse)).reverse⟩

/-- `askOpenAI` (App.tsx lines 87–106): POST the chat-completion request; on a
2xx response return `res.data.choices?.[0]?.message?.content?.trim() || ""`;
on a thrown error set status "OpenAI failed" and return "API Error". -/
def askOpenAI (question : String) (resp : Option ChatResponse) :
    String × List Ev :=
  match resp with
  | some r =>
      (jsOrEmpty ((((r.choices.bind List.head?).bind ChatChoice.message).bind
          ChatMessage.content).map jsTrim),
       [Ev.openAiRequest question])
  | none =>
      ("API Error", [Ev.openAiRequest question, Ev.setStatus "OpenAI failed"])

/-- `captureAndProcess` (App.tsx lines 41–66) as its event trace.  Mirrors the
source line by line: key precondition (`!openAiKey || !ocrKey`), status
"Capturing...", the `webcamRef.current` guard, the screenshot null-check, the
OCR call and the `!text` check, then the completion call followed
unconditionally by status "Complete" and `setAnswer(aiAnswer)`. -/
def captureAndProcess (cfg : Config) (env : CycleEnv) : List Ev :=
  if cfg.openAiKey = "" ∨ cfg.ocrKey = "" then
    [Ev.setStatus "Enter API keys in settings", Ev.setCapturing false]
  else
    Ev.setStatus "Capturing..." ::
    (if env.webcamMounted then
      match env.screenshot with
      | some imageSrc =>
          Ev.setStatus "Extracting text..." ::
          (let o := doOcr imageSrc env.ocrResponse
           o.2 ++
           (if o.1 = "" then
             [Ev.setStatus "No text found.", Ev.setAnswer ""]
           else
             Ev.setStatus "Getting answer..." ::
             (let a := askOpenAI o.1 env.openAiResponse
              a.2 ++ [Ev.setStatus "Complete", Ev.setAnswer a.1])))
      | none => [Ev.setStatus "Camera failed."]
    else [])

/-- Component state at the end of one cycle. -/
def runCycle (cfg : Config) (env : CycleEnv) (s : RunState) : RunState :=
  runState s (captureAndProcess cfg env)

/-- The status message an event sets, if any. -/
def statusOf : Ev → Option String
  | Ev.setStatus m => some m
  | _ => none

/-- The successive values `statusMessage` takes during one cycle. -/
def statusTrace (cfg : Config) (env : CycleEnv) : List String :=
  (captureAndProcess cfg env).filterMap statusOf

/-- Session-level actions of the `useEffect` on `capturing`
(App.tsx lines 27–39). -/
inductive SessionEff where
  | setDotColor (c : String)
  | runCycleNow
  | setTimer (ms : Int)
  | clearTimer
  | setStatus (m : String)
  deriving DecidableEq, Repr

/-- The `useEffect` body: when `capturing` is true, set the dot green, call
`captureAndProcess()` once immediately, then `setInterval(captureAndProcess,
interval * 1000)`; when false, set the dot red, clear any active timer and set
status "Idle". -/
def capturingEffect (capturing : Bool) (intervalSeconds : Int)
    (timerActive : Bool) : List SessionEff :=
  if capturing then
    [SessionEff.setDotColor "green", SessionEff.runCycleNow,
     SessionEff.setTimer (intervalSeconds * 1000)]
  else
    [SessionEff.setDotColor "red"] ++
    (if timerActive then [SessionEff.clearTimer] else []) ++
    [SessionEff.setStatus "Idle"]

/-- `DEFAULT_INTERVAL` (App.tsx line 7). -/
def DEFAULT_INTERVAL : Int := 40

/-- Accumulator for `jsNumber`: consume decimal digits. -/
def parseDigitsAux : List Char → Nat → Option Nat
  | [], acc => some acc
  | c :: cs, acc =>
      if c.isDigit then parseDigitsAux cs (acc * 10 + (c.toNat - 48)) else none

/-- JavaScript `Number(s)` restricted to the string shapes this application
stores and edits: the empty string coerces to `0`, a decimal integer string
with an optional leading minus coerces to its value, and anything else is NaN
(`none`).  (Fractional and exponent forms are outside the model; the interval
is saved as `interval.toString()` and the claims only concern integer-shaped
inputs.) -/
def jsNumber (s : String) : Option Int :=
  match s.data with
  | [] => some 0
  | '-' :: cs =>
      if cs = [] then none
      else (parseDigitsAux cs 0).map (fun n => -(n : Int))
  | cs => (parseDigitsAux cs 0).map (fun n => (n : Int))

/-- Initial interval state (App.tsx line 22):
`Number(localStorage.getItem("interval") || DEFAULT_INTERVAL)`; a `null` or
empty stored string falls back to the numeric default 40. -/
def loadInterval (stored : Option String) : Option Int :=
  match stored with
  | none => some DEFAULT_INTERVAL
  | some s => if s = "" then some DEFAULT_INTERVAL else jsNumber s

/-- The interval `TextField` change handler (App.tsx line 194):
`setIntervalState(Number(e.target.value))` — the raw field value coerced with
`Number`, stored unchecked. -/
def intervalOnChange (field : String) : Option Int :=
  jsNumber field

/-- The specification's Configuration invariant for the interval: the value is
a (non-NaN) positive integer. -/
def intervalInvariant (i : Option Int) : Prop :=
  ∃ n, i = some n ∧ 0 < n

/-! Concrete fixtures used by witnesses and counterexamples. -/

/-- A configuration with both keys present. -/
def cfgBothKeys : Config := ⟨"sk-key", "ocr-key", "a prompt"⟩

/-- A configuration whose OpenAI key is empty. -/
def cfgNoOpenAiKey : Config := ⟨"", "ocr-key", "a prompt"⟩

/-- A starting state in an active session with a previous answer on screen. -/
def sPrev : RunState := ⟨true, "Idle", "prev answer"⟩

/-- Cycle environment: frame captured, OCR reads "Q", completion call throws. -/
def envOpenAiFails : CycleEnv := ⟨true, some "img", some ⟨some [⟨some "Q"⟩]⟩, none⟩

/-- Cycle environment: OCR returns a whitespace-only string, completion
answers "B". -/
def envWhitespaceText : CycleEnv :=
  ⟨true, some "img", some ⟨some [⟨some " "⟩]⟩, some ⟨some [⟨some ⟨some "B"⟩⟩]⟩⟩

/-- Cycle environment: the webcam yields no screenshot. -/
def envCameraFails : CycleEnv := ⟨true, none, none, none⟩

/-- Cycle environment: everything succeeds, completion content " B ". -/
def envSuccess : CycleEnv :=
  ⟨true, some "img", some ⟨some [⟨some "Q"⟩]⟩, some ⟨some [⟨some ⟨some " B "⟩⟩]⟩⟩

/-- Cycle environment: OCR succeeds but its `ParsedText` is empty. -/
def envNoText : CycleEnv := ⟨true, some "img", some ⟨some [⟨some ""⟩]⟩, none⟩

/-- `x || ""` on a present string is the string itself. -/
theorem jsOrEmpty_some (s : String) : jsOrEmpty (some s) = s := by
  by_cases h : s = "" <;> simp [jsOrEmpty, h]

/-- The four in-order stage phrases of a cycle. -/
def stagePhrases : List String :=
  ["Capturing...", "Extracting text...", "Getting answer...", "Complete"]

/-- C3: a cycle started with either key empty emits exactly the "keys missing"
status and `setCapturing false`, so it ends with that status, with
`isCapturing = false`, performs no OCR or completion request, and the session
effect for the now-stopped session sets status "Idle". -/
theorem keysMissing_stops_session (cfg : Config) (env : CycleEnv) (s : RunState)
    (i : Int) (t : Bool) (hkeys : cfg.openAiKey = "" ∨ cfg.ocrKey = "") :
    captureAndProcess cfg env =
      [Ev.setStatus "Enter API keys in settings", Ev.setCapturing false] ∧
    (runCycle cfg env s).status = "Enter API keys in settings" ∧
    (runCycle cfg env s).capturing = false ∧
    (∀ img, Ev.ocrRequest img ∉ captureAndProcess cfg env) ∧
    (∀ q, Ev.openAiRequest q ∉ captureAndProcess cfg env) ∧
    SessionEff.setStatus "Idle" ∈ capturingEffect false i t := by
  have htrace : captureAndProcess cfg env =
      [Ev.setStatus "Enter API keys in settings", Ev.setCapturing false] := by
    unfold captureAndProcess
    rw [if_pos hkeys]
  refine ⟨htrace, ?_, ?_, ?_, ?_, ?_⟩
  · simp [runCycle, runState, htrace, applyEv]
  · simp [runCycle, runState, htrace, applyEv]
  · intro img; rw [htrace]; simp
  · intro q; rw [htrace]; simp
  · cases t <;> simp [capturingEffect]

/-- C3 witness: concretely, starting with an empty OpenAI key ends the cycle
with `capturing = false`. -/
theorem keysMissing_stops_session_applied :
    (runCycle cfgNoOpenAiKey envCameraFails sPrev).capturing = false :=
  (keysMissing_stops_session cfgNoOpenAiKey envCameraFails sPrev 40 true
    (Or.inl rfl)).2.2.1

/-- C10: a cycle aborted at the key precondition leaves `lastAnswer` untouched
— only the status and the capturing flag change. -/
theorem keysMissing_preserves_answer (cfg : Config) (env : CycleEnv)
    (s : RunState) (hkeys : cfg.openAiKey = "" ∨ cfg.ocrKey = "") :
    (runCycle cfg env s).answer = s.answer ∧
    (runCycle cfg env s).status = "Enter API keys in settings" ∧
    (runCycle cfg env s).capturing = false := by
  have htrace : captureAndProcess cfg env =
      [Ev.setStatus "Enter API keys in settings", Ev.setCapturing false] := by
    unfold captureAndProcess
    rw [if_pos hkeys]
  refine ⟨?_, ?_, ?_⟩ <;> simp [runCycle, runState, htrace, applyEv]

/-- C10 witness: with a previous answer on screen and an empty OpenAI key, the
aborted cycle keeps the previous answer. -/
theorem keysMissing_preserves_answer_applied :
    (runCycle cfgNoOpenAiKey envOpenAiFails sPrev).answer = sPrev.answer :=
  (keysMissing_preserves_answer cfgNoOpenAiKey envOpenAiFails sPrev
    (Or.inl rfl)).1

/-- C5: when both keys are present, the webcam is mounted and `getScreenshot()`
returns null, the cycle emits only the "Capturing..." and "Camera failed."
statuses: `lastAnswer` and `isCapturing` are unchanged and no request is sent.
(In the model the cycle is a total function, so no exception escapes.) -/
theorem cameraFailed_cycle (cfg : Config) (env : CycleEnv) (s : RunState)
    (hk1 : cfg.openAiKey ≠ "") (hk2 : cfg.ocrKey ≠ "")
    (hm : env.webcamMounted = true) (hs : env.screenshot = none) :
    captureAndProcess cfg env =
      [Ev.setStatus "Capturing...", Ev.setStatus "Camera failed."] ∧
    (runCycle cfg env s).status = "Camera failed." ∧
    (runCycle cfg env s).answer = s.answer ∧
    (runCycle cfg env s).capturing = s.capturing ∧
    (∀ img, Ev.ocrRequest img ∉ captureAndProcess cfg env) ∧
    (∀ q, Ev.openAiRequest q ∉ captureAndProcess cfg env) := by
  have htrace : captureAndProcess cfg env =
      [Ev.setStatus "Capturing...", Ev.setStatus "Camera failed."] := by
    simp [captureAndProcess, hk1, hk2, hm, hs]
  refine ⟨htrace, ?_, ?_, ?_, ?_, ?_⟩
  · simp [runCycle, runState, htrace, applyEv]
  · simp [runCycle, runState, htrace, applyEv]
  · simp [runCycle, runState, htrace, applyEv]
  · intro img; rw [htrace]; simp
  · intro q; rw [htrace]; simp

/-- C5 witness: a concrete failed capture keeps the previous answer and the
active session. -/
theorem cameraFailed_cycle_applied :
    (runCycle cfgBothKeys envCameraFails sPrev).answer = sPrev.answer :=
  (cameraFailed_cycle cfgBothKeys envCameraFails sPrev (by decide) (by decide)
    rfl rfl).2.2.1

/-- C1 counterexample: with valid keys, a captured frame, OCR text "Q" and a
completion call that throws (network error or non-2xx), the cycle ends with
`lastAnswer = "API Error"` but with `statusMessage = "Complete"` — the success
phrase, not a failure phrase: the claim that the final status reflects the
failure is false on the code. -/
theorem completionFailure_final_status_is_complete :
    (runCycle cfgBothKeys envOpenAiFails sPrev).answer = "API Error" ∧
    (runCycle cfgBothKeys envOpenAiFails sPrev).status = "Complete" ∧
    (runCycle cfgBothKeys envOpenAiFails sPrev).status ≠ "OpenAI failed" := by
  decide

/-- C1 (amended): on a completion failure the cycle ends with
`lastAnswer = "API Error"` and `isCapturing` unchanged (the session stays
active), but the final `statusMessage` is "Complete"; the failure status
"OpenAI failed" is set only transiently mid-cycle before being overwritten. -/
theorem completionFailure_cycle (cfg : Config) (env : CycleEnv) (s : RunState)
    (hk1 : cfg.openAiKey ≠ "") (hk2 : cfg.ocrKey ≠ "")
    (hm : env.webcamMounted = true) (img : String)
    (hs : env.screenshot = some img)
    (htext : (doOcr img env.ocrResponse).1 ≠ "")
    (hfail : env.openAiResponse = none) :
    (runCycle cfg env s).answer = "API Error" ∧
    (runCycle cfg env s).status = "Complete" ∧
    (runCycle cfg env s).capturing = s.capturing ∧
    Ev.setStatus "OpenAI failed" ∈ captureAndProcess cfg env := by
  cases ho : env.ocrResponse with
  | none =>
      rw [ho] at htext
      exact absurd rfl htext
  | some r =>
      rw [ho] at htext
      simp only [doOcr] at htext
      refine ⟨?_, ?_, ?_, ?_⟩ <;>
        simp [runCycle, runState, captureAndProcess, doOcr, askOpenAI, applyEv,
          hk1, hk2, hm, hs, ho, hfail, htext]

/-- C1 witness: the amended theorem applied at the concrete failing cycle. -/
theorem completionFailure_cycle_applied :
    (runCycle cfgBothKeys envOpenAiFails sPrev).capturing = sPrev.capturing :=
  (completionFailure_cycle cfgBothKeys envOpenAiFails sPrev (by decide)
    (by decide) rfl "img" rfl (by decide) rfl).2.2.1

/-- C2 counterexample: with OCR returning the whitespace-only text " ", the
cycle does not abort: it sends the completion request for " " and ends with
status "Complete" and the completion answer — the `!text` check in App.tsx
line 53 only catches the empty string, not whitespace. -/
theorem whitespaceText_reaches_completion :
    (runCycle cfgBothKeys envWhitespaceText sPrev).status = "Complete" ∧
    (runCycle cfgBothKeys envWhitespaceText sPrev).answer = "B" ∧
    Ev.openAiRequest " " ∈ captureAndProcess cfgBothKeys envWhitespaceText := by
  decide

/-- C2 (amended): a cycle whose OCR step returns the empty string (exactly
empty, not merely whitespace) sets status "No text found.", clears
`lastAnswer`, leaves `isCapturing` unchanged and never invokes the completion
client. -/
theorem emptyText_aborts_cycle (cfg : Config) (env : CycleEnv) (s : RunState)
    (hk1 : cfg.openAiKey ≠ "") (hk2 : cfg.ocrKey ≠ "")
    (hm : env.webcamMounted = true) (img : String)
    (hs : env.screenshot = some img)
    (htext : (doOcr img env.ocrResponse).1 = "") :
    (runCycle cfg env s).status = "No text found." ∧
    (runCycle cfg env s).answer = "" ∧
    (runCycle cfg env s).capturing = s.capturing ∧
    (∀ q, Ev.openAiRequest q ∉ captureAndProcess cfg env) := by
  cases ho : env.ocrResponse with
  | none =>
      refine ⟨?_, ?_, ?_, ?_⟩ <;>
        simp [runCycle, runState, captureAndProcess, doOcr, applyEv,
          hk1, hk2, hm, hs, ho]
  | some r =>
      rw [ho] at htext
      simp only [doOcr] at htext
      refine ⟨?_, ?_, ?_, ?_⟩ <;>
        simp [runCycle, runState, captureAndProcess, doOcr, applyEv,
          hk1, hk2, hm, hs, ho, htext]

/-- C2 witness: a cycle whose OCR response carries an empty `ParsedText`
clears the previous answer and reports "No text found.". -/
theorem emptyText_aborts_cycle_applied :
    (runCycle cfgBothKeys envNoText sPrev).status = "No text found." ∧
    (runCycle cfgBothKeys envNoText sPrev).answer = "" :=
  ⟨(emptyText_aborts_cycle cfgBothKeys envNoText sPrev (by decide) (by decide)
      rfl "img" rfl (by decide)).1,
   (emptyText_aborts_cycle cfgBothKeys envNoText sPrev (by decide) (by decide)
      rfl "img" rfl (by decide)).2.1⟩

/-- C4 counterexample: a 2xx completion response whose body has no `choices`
makes `askOpenAI` return the empty string, not the error marker "API Error" —
the `|| ""` fallback applies on the success path. -/
theorem missingChoices_returns_empty :
    (askOpenAI "q" (some (ChatResponse.mk none))).1 = "" ∧
    (askOpenAI "q" (some (ChatResponse.mk none))).1 ≠ "API Error" := by
  decide

/-- C4 (amended): `askOpenAI` returns "API Error" exactly on thrown failures
(network error or non-2xx, which axios raises); on a 2xx response it returns
the trimmed content of the first choice, and the empty string when `choices`
is absent or empty. -/
theorem askOpenAI_contract (q : String) :
    ((askOpenAI q none).1 = "API Error" ∧
     Ev.setStatus "OpenAI failed" ∈ (askOpenAI q none).2) ∧
    (∀ (r : ChatResponse) (ch : ChatChoice) (cs : List ChatChoice)
        (m : ChatMessage) (c : String),
        r.choices = some (ch :: cs) → ch.message = some m →
        m.content = some c → (askOpenAI q (some r)).1 = jsTrim c) ∧
    (∀ r : ChatResponse, r.choices = none ∨ r.choices = some [] →
        (askOpenAI q (some r)).1 = "") := by
  refine ⟨⟨rfl, by simp [askOpenAI]⟩, ?_, ?_⟩
  · intro r ch cs m c hch hmsg hc
    simp [askOpenAI, hch, hmsg, hc, jsOrEmpty_some]
  · rintro r (h | h) <;> simp [askOpenAI, h, jsOrEmpty]

/-- C4 witness: the contract applied at a thrown failure and at a response
with a present first choice. -/
theorem askOpenAI_contract_applied :
    (askOpenAI "hi" none).1 = "API Error" ∧
    (askOpenAI "hi" (some ⟨some [⟨some ⟨some " A "⟩⟩]⟩)).1 = jsTrim " A " :=
  ⟨(askOpenAI_contract "hi").1.1,
   (askOpenAI_contract "hi").2.1 ⟨some [⟨some ⟨some " A "⟩⟩]⟩ ⟨some ⟨some " A "⟩⟩
     [] ⟨some " A "⟩ " A " rfl rfl rfl⟩

/-- C6: `doOcr` is total and returns a string in every case — the first
parsed-result's `ParsedText` when present, and the empty string when the call
throws, when `ParsedResults` is absent or empty, or when the first result has
no `ParsedText`. -/
theorem doOcr_contract (img : String) :
    ((doOcr img none).1 = "" ∧ Ev.setStatus "OCR failed" ∈ (doOcr img none).2) ∧
    (∀ r : OcrResponse, r.ParsedResults = none ∨ r.ParsedResults = some [] →
        (doOcr img (some r)).1 = "") ∧
    (∀ (r : OcrResponse) (p : OcrParsedResult) (ps : List OcrParsedResult),
        r.ParsedResults = some (p :: ps) → p.ParsedText = none →
        (doOcr img (some r)).1 = "") ∧
    (∀ (r : OcrResponse) (p : OcrParsedResult) (ps : List OcrParsedResult)
        (t : String),
        r.ParsedResults = some (p :: ps) → p.ParsedText = some t →
        t ≠ "" → (doOcr img (some r)).1 = t) := by
  refine ⟨⟨rfl, by simp [doOcr]⟩, ?_, ?_, ?_⟩
  · rintro r (h | h) <;> simp [doOcr, h, jsOrEmpty]
  · intro r p ps hr hp
    simp [doOcr, hr, hp, jsOrEmpty]
  · intro r p ps t hr hp ht
    simp [doOcr, hr, hp, jsOrEmpty_some]

/-- C6 witness: the contract applied at a thrown request and at a response
carrying the text "hello". -/
theorem doOcr_contract_applied :
    (doOcr "img" none).1 = "" ∧
    (doOcr "img" (some ⟨some [⟨some "hello"⟩]⟩)).1 = "hello" :=
  ⟨(doOcr_contract "img").1.1,
   (doOcr_contract "img").2.2.2 ⟨some [⟨some "hello"⟩]⟩ ⟨some "hello"⟩ [] "hello"
     rfl rfl (by decide)⟩

/-- C7: a fully successful cycle — keys present, frame captured, OCR text
non-empty, completion returning a first choice with content `c` — ends with
status "Complete" and `lastAnswer` equal to `c` trimmed, the session left
active. -/
theorem success_cycle (cfg : Config) (env : CycleEnv) (s : RunState)
    (hk1 : cfg.openAiKey ≠ "") (hk2 : cfg.ocrKey ≠ "")
    (hm : env.webcamMounted = true) (img : String)
    (hs : env.screenshot = some img)
    (htext : (doOcr img env.ocrResponse).1 ≠ "")
    (r : ChatResponse) (hr : env.openAiResponse = some r)
    (ch : ChatChoice) (cs : List ChatChoice) (hch : r.choices = some (ch :: cs))
    (m : ChatMessage) (hmsg : ch.message = some m)
    (c : String) (hc : m.content = some c) (_hcne : c ≠ "") :
    (runCycle cfg env s).status = "Complete" ∧
    (runCycle cfg env s).answer = jsTrim c ∧
    (runCycle cfg env s).capturing = s.capturing := by
  cases ho : env.ocrResponse with
  | none => rw [ho] at htext; exact absurd rfl htext
  | some ro =>
      rw [ho] at htext
      simp only [doOcr] at htext
      refine ⟨?_, ?_, ?_⟩ <;>
        simp [runCycle, runState, captureAndProcess, doOcr, askOpenAI, applyEv,
          hk1, hk2, hm, hs, ho, htext, hr, hch, hmsg, hc, jsOrEmpty_some]

/-- C7 witness: OCR text "Q" and completion content " B " yield the trimmed
answer "B" with status "Complete". -/
theorem success_cycle_applied :
    (runCycle cfgBothKeys envSuccess sPrev).status = "Complete" ∧
    (runCycle cfgBothKeys envSuccess sPrev).answer = "B" := by
  have h := success_cycle cfgBothKeys envSuccess sPrev (by decide) (by decide)
    rfl "img" rfl (by decide) ⟨some [⟨some ⟨some " B "⟩⟩]⟩ rfl ⟨some ⟨some " B "⟩⟩
    [] rfl ⟨some " B "⟩ rfl " B " rfl (by decide)
  refine ⟨h.1, ?_⟩
  rw [h.2.1]
  decide

/-- C8: starting a session with both keys present runs one cycle immediately —
the effect's action list is dot-green, run-cycle-now, then the timer — and in
every environment the stage phrases that appear in the cycle's status trace
form, in order, a prefix of Capturing → Extracting → Getting answer →
Complete. -/
theorem startSession_immediate_cycle_stage_order (cfg : Config)
    (hk1 : cfg.openAiKey ≠ "") (hk2 : cfg.ocrKey ≠ "") (i : Int) (t : Bool) :
    capturingEffect true i t =
      [SessionEff.setDotColor "green", SessionEff.runCycleNow,
       SessionEff.setTimer (i * 1000)] ∧
    (∀ env : CycleEnv, ∃ rest,
        (statusTrace cfg env).filter (fun m => decide (m ∈ stagePhrases)) ++ rest
          = stagePhrases) := by
  refine ⟨rfl, ?_⟩
  intro env
  obtain ⟨wm, shot, ocrR, aiR⟩ := env
  cases wm with
  | false =>
      have h1 : statusTrace cfg ⟨false, shot, ocrR, aiR⟩ = ["Capturing..."] := by
        simp [statusTrace, captureAndProcess, statusOf, hk1, hk2]
      rw [h1]
      exact ⟨["Extracting text...", "Getting answer...", "Complete"], by decide⟩
  | true =>
      cases shot with
      | none =>
          have h1 : statusTrace cfg ⟨true, none, ocrR, aiR⟩ =
              ["Capturing...", "Camera failed."] := by
            simp [statusTrace, captureAndProcess, statusOf, hk1, hk2]
          rw [h1]
          exact ⟨["Extracting text...", "Getting answer...", "Complete"],
            by decide⟩
      | some img =>
          cases ocrR with
          | none =>
              have h1 : statusTrace cfg ⟨true, some img, none, aiR⟩ =
                  ["Capturing...", "Extracting text...", "OCR failed",
                   "No text found."] := by
                simp [statusTrace, captureAndProcess, doOcr, statusOf, hk1, hk2]
              rw [h1]
              exact ⟨["Getting answer...", "Complete"], by decide⟩
          | some r =>
              by_cases htext :
                  jsOrEmpty ((r.ParsedResults.bind List.head?).bind
                    OcrParsedResult.ParsedText) = ""
              · have h1 : statusTrace cfg ⟨true, some img, some r, aiR⟩ =
                    ["Capturing...", "Extracting text...", "No text found."] := by
                  simp [statusTrace, captureAndProcess, doOcr, statusOf,
                    hk1, hk2, htext]
                rw [h1]
                exact ⟨["Getting answer...", "Complete"], by decide⟩
              · cases aiR with
                | none =>
                    have h1 : statusTrace cfg ⟨true, some img, some r, none⟩ =
                        ["Capturing...", "Extracting text...",
                         "Getting answer...", "OpenAI failed", "Complete"] := by
                      simp [statusTrace, captureAndProcess, doOcr, askOpenAI,
                        statusOf, hk1, hk2, htext]
                    rw [h1]
                    exact ⟨[], by decide⟩
                | some cr =>
                    have h1 : statusTrace cfg ⟨true, some img, some r, some cr⟩ =
                        ["Capturing...", "Extracting text...",
                         "Getting answer...", "Complete"] := by
                      simp [statusTrace, captureAndProcess, doOcr, askOpenAI,
                        statusOf, hk1, hk2, htext]
                    rw [h1]
                    exact ⟨[], by decide⟩

/-- C8 witness: with both keys present the start effect is concretely
dot-green, immediate cycle, then the 40-second timer. -/
theorem startSession_immediate_cycle_applied :
    capturingEffect true 40 false =
      [SessionEff.setDotColor "green", SessionEff.runCycleNow,
       SessionEff.setTimer (40 * 1000)] :=
  (startSession_immediate_cycle_stage_order cfgBothKeys (by decide) (by decide)
    40 false).1

/-- C9 counterexample: typing "0" in the interval field stores the value 0
unchecked (`setIntervalState(Number(e.target.value))`), so the "positive
integer" invariant does not hold after every settings edit. -/
theorem interval_zero_breaks_invariant :
    intervalOnChange "0" = some 0 ∧ ¬ intervalInvariant (intervalOnChange "0") := by
  constructor
  · decide
  · intro h
    obtain ⟨n, hn, hp⟩ := h
    have h0 : intervalOnChange "0" = some 0 := by decide
    rw [h0] at hn
    injection hn with hn0
    omega

/-- C9 (amended): at startup a missing or empty stored interval loads as the
default 40, which is a positive integer; but the value is not kept positive or
integral afterwards — a stored "0" loads as 0 and an edit to "-5" stores -5,
unchecked. -/
theorem interval_default_forty_unchecked :
    loadInterval none = some DEFAULT_INTERVAL ∧
    loadInterval (some "") = some DEFAULT_INTERVAL ∧
    intervalInvariant (loadInterval none) ∧
    loadInterval (some "0") = some 0 ∧
    intervalOnChange "-5" = some (-5) := by
  refine ⟨by decide, by decide, ⟨40, by decide, by decide⟩, by decide, by decide⟩
